import Mathlib

/-!
# pm-goPkg `log` package: formatters, routing table, environment gate, bootstrap

A shallow embedding of `src/log/com.go` and `src/log/init.go`.  The package is a
thin configuration layer over three libraries (logrus, lfshook, file-rotatelogs)
and the Go standard library; the parts of those libraries the package relies on
are modelled in the first sections, each with a note on what the Go original
does, and the package's own functions follow under their source names.
-/

namespace PmLog

/-! ## Go standard library: `time`, `fmt` -/

/-- Go `time.Time` as the civil fields `Time.Format` works from (the date and
clock of the instant in the value's own location). -/
structure Time where
  year : Int
  month : Nat
  day : Nat
  hour : Nat
  minute : Nat
  second : Nat
deriving DecidableEq, Repr

/-- Decimal digits of `n`, left-padded with `0` to at least `width` digits. -/
def zeroPad (width n : Nat) : String :=
  String.mk (List.replicate (width - (Nat.repr n).length) '0') ++ Nat.repr n

/-- Go `time.appendInt(b, x, width)`: a minus sign for a negative `x`, then the
magnitude zero-padded to `width` digits. -/
def appendInt (x : Int) (width : Nat) : String :=
  if x < 0 then "-" ++ zeroPad width x.natAbs else zeroPad width x.toNat

/-- Go `Time.Format` on the characters of a layout.  The reference chunks
`2006` (year, four digits), `01` (month), `02` (day), `15` (hour of the 24-hour
clock), `04` (minute) and `05` (second), two digits each, are replaced by the
value; every other character is copied.  The further chunks of Go (`Jan`,
`Mon`, `PM`, `MST`, `_2`, a single `1`..`5`, `03`, `06`, fractions, zones) do
not occur in the layout this package uses and are not interpreted here. -/
def formatLayout (t : Time) : List Char → String
  | [] => ""
  | '2' :: '0' :: '0' :: '6' :: rest => appendInt t.year 4 ++ formatLayout t rest
  | '0' :: '1' :: rest => zeroPad 2 t.month ++ formatLayout t rest
  | '0' :: '2' :: rest => zeroPad 2 t.day ++ formatLayout t rest
  | '1' :: '5' :: rest => zeroPad 2 t.hour ++ formatLayout t rest
  | '0' :: '4' :: rest => zeroPad 2 t.minute ++ formatLayout t rest
  | '0' :: '5' :: rest => zeroPad 2 t.second ++ formatLayout t rest
  | c :: rest => String.singleton c ++ formatLayout t rest

/-- Go `t.Format(layout)`. -/
def Time.Format (t : Time) (layout : String) : String :=
  formatLayout t layout.toList

/-- Operands left over once the layout is consumed, as Go reports them:
`%!(EXTRA string=a, string=b)`. -/
def extraOperands (args : List String) : String :=
  "%!(EXTRA " ++ ", ".intercalate (args.map fun a => "string=" ++ a) ++ ")"

/-- Go `fmt.Sprintf` at the type it is used with in this package: a layout and
string operands.  Literal characters are copied, `%%` is a percent sign, `%s`
and `%v` consume the next operand and copy it verbatim (an operand is never
re-scanned for verbs), a verb without operand gives `%!s(MISSING)`, a trailing
`%` gives `%!(NOVERB)`, left-over operands are listed after the text.  Flags,
widths and other verbs do not occur in the layouts of this package; any other
character after `%` is rendered the way Go renders a verb that has no meaning
for a string, `%!d(string=a)`. -/
def sprintfAux : List Char → List String → String
  | [], [] => ""
  | [], a :: args => extraOperands (a :: args)
  | ['%'], args => "%!(NOVERB)" ++ sprintfAux [] args
  | '%' :: '%' :: rest, args => "%" ++ sprintfAux rest args
  | '%' :: c :: rest, [] =>
      "%!" ++ String.singleton c ++ "(MISSING)" ++ sprintfAux rest []
  | '%' :: c :: rest, a :: args =>
      (if c = 's' ∨ c = 'v' then a
       else "%!" ++ String.singleton c ++ "(string=" ++ a ++ ")") ++ sprintfAux rest args
  | c :: rest, args => String.singleton c ++ sprintfAux rest args

/-- Go `fmt.Sprintf(layout, args...)` with string operands. -/
def Sprintf (layout : String) (args : List String) : String :=
  sprintfAux layout.toList args

/-! ## logrus: levels, fields, entries -/

/-- The logrus `Level` (a `uint32`): 0 panic, 1 fatal, 2 error, 3 warn, 4 info,
5 debug, 6 trace; a smaller number is a more severe level. -/
abbrev Level := Nat

def PanicLevel : Level := 0
def FatalLevel : Level := 1
def ErrorLevel : Level := 2
def WarnLevel : Level := 3
def InfoLevel : Level := 4
def DebugLevel : Level := 5
def TraceLevel : Level := 6

/-- The logrus `Level.String()`: the level's lower-case name, `unknown` for a
number that is no level. -/
def Level.String (l : Level) : String :=
  match l with
  | 0 => "panic"
  | 1 => "fatal"
  | 2 => "error"
  | 3 => "warning"
  | 4 => "info"
  | 5 => "debug"
  | 6 => "trace"
  | _ => "unknown"

/-- A structured-field value (Go `any`).  `str` is a value whose dynamic type is
`string`; `int`, `bool` and `null` are the integer, boolean and `nil` values;
`func` is a function or a pointer to a function and `other` a value of any
further dynamic type (a float, a struct, a named string type, ...), both
carried with the text the `%v` verb produces for them. -/
inductive Value where
  | str (s : String)
  | int (i : Int)
  | bool (b : Bool)
  | null
  | func (rendered : String)
  | other (rendered : String)
deriving DecidableEq, Repr

/-- Go `fmt.Sprintf("%v", value)` for one operand. -/
def Value.sprintV : Value → String
  | .str s => s
  | .int i => toString i
  | .bool b => if b then "true" else "false"
  | .null => "<nil>"
  | .func rendered => rendered
  | .other rendered => rendered

/-- The type assertion `value.(string)`. -/
def Value.asString : Value → Option String
  | .str s => some s
  | _ => none

/-- The logrus `Fields`, a `map[string]interface{}`, as an association list
read by its first binding of a key; the empty list is the empty and the nil
map alike (a lookup in either finds nothing). -/
abbrev Fields := List (String × Value)

/-- The value is a function or a pointer to a function. -/
def Value.isFunc : Value → Bool
  | .func _ => true
  | _ => false

/-- The logrus `WithFields` on a logger: the entry's data are the given fields
without those whose value is a function or a pointer to one, which logrus
refuses to add. -/
def WithFields (fields : Fields) : Fields :=
  fields.filter fun kv => !kv.2.isFunc

/-- Map lookup `value, ok := data[key]`. -/
def Fields.get (data : Fields) (key : String) : Option Value :=
  List.lookup key data

/-- The logrus `Entry`, the fields a formatter reads. -/
structure Entry where
  Time : Time
  Level : Level
  Message : String
  Data : Fields
deriving Repr

/-! ## `com.go`: the two formatters -/

/-- `func (f *ComLogFormatter) Format(entry *logrus.Entry) ([]byte, error)` -/
def ComLogFormatter.Format (entry : Entry) : Except String String :=
  let timestamp := entry.Time.Format "2006-01-02 15:04:05"
  let msg := Sprintf "[%s] [%s] %s" [timestamp, Level.String entry.Level, entry.Message]
  .ok (msg ++ "\n")

/-- `func getStringValue(data logrus.Fields, key, defaultValue string) string` -/
def getStringValue (data : Fields) (key defaultValue : String) : String :=
  match data.get key with
  | some value =>
    match value.asString with
    | some str => str
    | none => value.sprintV
  | none => defaultValue

/-- `func (f *AccessFormatter) Format(entry *logrus.Entry) ([]byte, error)` -/
def AccessFormatter.Format (entry : Entry) : Except String String :=
  let timestamp := entry.Time.Format "2006-01-02 15:04:05"
  let ip := getStringValue entry.Data "ip" "0.0.0.0"
  let method := getStringValue entry.Data "method" "GET"
  let url := getStringValue entry.Data "url" "/"
  let statusCode := getStringValue entry.Data "status_code" "200"
  let responseSize := getStringValue entry.Data "response_size" "0"
  let msg := Sprintf "[%s] [%s] [%s] [%s] [%s] [%s] %s"
    [timestamp, ip, method, url, statusCode, responseSize, entry.Message]
  .ok (msg ++ "\n")

/-! ## Go standard library: `os`, `strings`, `path/filepath` -/

/-- The process environment: a variable's value when it is set. -/
abbrev Environ := String → Option String

/-- Go `os.Getenv`: the value, the empty string for a variable that is not set. -/
def Getenv (environ : Environ) (key : String) : String :=
  (environ key).getD ""

/-- Go `unicode.ToLower` on one rune.  `A`..`Z` map to `a`..`z`; the two runes
outside ASCII whose lower case is an ASCII letter are the Kelvin sign U+212A
(to `k`) and the dotted capital I U+0130 (to `i`); every other rune outside
ASCII has a lower case outside ASCII and is left as it is here. -/
def toLowerRune (c : Char) : Char :=
  if 65 ≤ c.toNat ∧ c.toNat ≤ 90 then Char.ofNat (c.toNat + 32)
  else if c.toNat = 0x212A then 'k'
  else if c.toNat = 0x130 then 'i'
  else c

/-- Go `strings.ToLower`. -/
def ToLower (s : String) : String :=
  String.mk (s.toList.map toLowerRune)

/-- Go `strings.Split(path, "/")` on the characters of a path: the pieces
between slashes, empty pieces included. -/
def splitSlash : List Char → List (List Char)
  | [] => [[]]
  | c :: cs =>
    if c = '/' then [] :: splitSlash cs
    else
      match splitSlash cs with
      | [] => [[c]]
      | piece :: pieces => (c :: piece) :: pieces

/-- One path element of Go `filepath.Clean`, on the elements kept so far (last
one first): an empty element and `.` are dropped, `..` removes the element
before it, is dropped at the root, and is kept at the start of a relative path;
any other element is kept. -/
def cleanStep (rooted : Bool) (kept : List (List Char)) (elem : List Char) :
    List (List Char) :=
  if elem = [] ∨ elem = ['.'] then kept
  else if elem = ['.', '.'] then
    match kept with
    | [] => if rooted then [] else [elem]
    | top :: below => if top = ['.', '.'] then elem :: kept else below
  else elem :: kept

/-- The kept elements written out with slashes between them. -/
def joinSlash : List (List Char) → List Char
  | [] => []
  | [e] => e
  | e :: es => e ++ '/' :: joinSlash es

/-- Go `filepath.Clean` (with `/` as separator), on characters. -/
def cleanChars (path : List Char) : List Char :=
  let rooted := path.head? = some '/'
  let kept := (splitSlash path).foldl (cleanStep rooted) []
  let out := (if rooted then ['/'] else []) ++ joinSlash kept.reverse
  if out = [] then ['.'] else out

/-- Go `filepath.Clean`. -/
def Clean (path : String) : String :=
  String.mk (cleanChars path.toList)

/-- Go `filepath.Join`: the elements from the first non-empty one on, joined
by slashes and cleaned; the empty string when every element is empty. -/
def Join (elem : List String) : String :=
  match elem.dropWhile (fun e => e = "") with
  | [] => ""
  | rest => Clean ("/".intercalate rest)

/-! ## file-rotatelogs, lfshook, logrus: writers, hooks, loggers -/

/-- One hour, `time.Hour`, in nanoseconds. -/
def Hour : Int := 3600 * 1000000000

/-- A rotating writer as `rotatelogs.New(pattern, WithMaxAge(..),
WithRotationTime(..), WithRotationSize(..))` configures it: the file-name
template and the three options (durations in nanoseconds, size in bytes). -/
structure RotateLogs where
  pattern : String
  maxAge : Int
  rotationTime : Int
  rotationSize : Int
deriving DecidableEq, Repr

/-- Where a logger's own output goes: `os.Stdout`, `os.Stderr`, or
`os.NewFile(0, os.DevNull)`.  The last is not the device `/dev/null`: it is a
new `*os.File` around file descriptor 0 that only bears the name `/dev/null`,
so a write to it goes to whatever descriptor 0 refers to at that moment (see
`Fd0`). -/
inductive Sink where
  | stdout
  | stderr
  | fd0DevNull
deriving DecidableEq, Repr

/-- The logrus `TextFormatter` options this package sets. -/
structure TextFormatter where
  TimestampFormat : String
  FullTimestamp : Bool
  PadLevelText : Bool
deriving DecidableEq, Repr

/-- The formatter an lfshook hook renders its lines with. -/
inductive HookFormatter where
  | com
  | access
deriving DecidableEq, Repr

/-- Run a hook's formatter on an entry. -/
def HookFormatter.Format : HookFormatter → Entry → Except String String
  | .com, entry => ComLogFormatter.Format entry
  | .access, entry => AccessFormatter.Format entry

/-- The lfshook `WriterMap`, a `map[logrus.Level]io.Writer`. -/
abbrev WriterMap := List (Level × RotateLogs)

/-- An `lfshook.LfsHook` built by `lfshook.NewHook(writeMap, formatter)`. -/
structure LfsHook where
  writers : WriterMap
  formatter : HookFormatter
deriving Repr

/-- `lfshook.NewHook(writeMap, formatter)`. -/
def NewHook (writeMap : WriterMap) (formatter : HookFormatter) : LfsHook :=
  { writers := writeMap, formatter := formatter }

/-- The logrus `AllLevels`. -/
def AllLevels : List Level :=
  [PanicLevel, FatalLevel, ErrorLevel, WarnLevel, InfoLevel, DebugLevel, TraceLevel]

/-- The lfshook `Levels()`: the hook registers for every level, `logrus.AllLevels`;
which levels reach a writer is decided in `Fire`. -/
def LfsHook.Levels (_hook : LfsHook) : List Level :=
  AllLevels

/-- What an emission does, in order. -/
inductive Event where
  /-- A hook wrote `line` to the rotating writer `writer`. -/
  | fileWrite (writer : RotateLogs) (line : String)
  /-- The logger wrote the entry, rendered by its own formatter, to its output. -/
  | output (sink : Sink) (formatter : TextFormatter) (entry : Entry)
  /-- The call panicked with the entry, `panic(entry)`. -/
  | panic (entry : Entry)
  /-- The process exited, `os.Exit(code)`. -/
  | exit (code : Nat)
deriving Repr

/-- The event is a line appended to a log file. -/
def Event.isFileWrite : Event → Bool
  | .fileWrite _ _ => true
  | _ => false

/-- The rotating writer a file-write event went to. -/
def Event.writer? : Event → Option RotateLogs
  | .fileWrite writer _ => some writer
  | _ => none

/-- The rotating writers an emission wrote a line to, in order. -/
def writersOf (events : List Event) : List RotateLogs :=
  events.filterMap Event.writer?

/-- The event ends the caller's control flow: a panic or a process exit. -/
def Event.isAbort : Event → Bool
  | .panic _ => true
  | .exit _ => true
  | _ => false

/-- The event is a record written to the given sink. -/
def Event.isOutputTo (sink : Sink) : Event → Bool
  | .output s _ _ => decide (s = sink)
  | _ => false

/-- What file descriptor 0 of the process refers to.  At start it is standard
input.  The `*os.File` that `os.NewFile(0, ..)` returns carries a finalizer
that closes its descriptor: once such a wrapper is unreachable (the logger
holding it was replaced) garbage collection closes descriptor 0.  A file
opened while 0 is closed gets descriptor 0, the lowest free one. -/
inductive Fd0 where
  | stdin
  | closed
  | logFile (writer : RotateLogs)
deriving DecidableEq, Repr

/-- The part of the process state a logger's writes depend on: what descriptor
0 refers to, and the rotating writers whose file is open. -/
structure Proc where
  fd0 : Fd0
  opened : List RotateLogs
deriving Repr

/-- The process at start. -/
def Proc.start : Proc :=
  { fd0 := Fd0.stdin, opened := [] }

/-- Garbage collection has run the finalizer of an unreachable wrapper of
descriptor 0. -/
def Proc.finalizeFd0 (p : Proc) : Proc :=
  { p with fd0 := Fd0.closed }

/-- One event on the process: the process after it, and the rotating writers
whose log file received the bytes.  A hook write goes to its writer's file,
which the writer opens at its first write (taking descriptor 0 when that is
free); the logger's own output to `os.NewFile(0, os.DevNull)` goes to the log
file descriptor 0 refers to, when it refers to one. -/
def Proc.step (p : Proc) : Event → Proc × List RotateLogs
  | .fileWrite writer _ =>
    if writer ∈ p.opened then (p, [writer])
    else
      ({ fd0 :=
          match p.fd0 with
          | .closed => Fd0.logFile writer
          | fd => fd
         opened := writer :: p.opened }, [writer])
  | .output .fd0DevNull _ _ =>
    (p,
      match p.fd0 with
      | .logFile writer => [writer]
      | _ => [])
  | _ => (p, [])

/-- The events of an emission on the process, in order. -/
def Proc.run (p : Proc) : List Event → Proc × List RotateLogs
  | [] => (p, [])
  | e :: es =>
    (((p.step e).1.run es).1, (p.step e).2 ++ ((p.step e).1.run es).2)

/-- The lfshook `Fire` for a writer map: a level without writer is skipped, a
format error writes nothing, otherwise the formatted line goes to the level's
writer. -/
def LfsHook.Fire (hook : LfsHook) (entry : Entry) : List Event :=
  match List.lookup entry.Level hook.writers with
  | none => []
  | some writer =>
    match hook.formatter.Format entry with
    | .error _ => []
    | .ok line => [Event.fileWrite writer line]

/-- A `logrus.Logger`. -/
structure Logger where
  Out : Sink
  Hooks : List LfsHook
  Formatter : TextFormatter
  Level : Level
deriving Repr

/-- `logrus.New()`: output to standard error, the default text formatter, no
hooks, level info. -/
def Logger.New : Logger :=
  { Out := Sink.stderr
    Hooks := []
    Formatter := { TimestampFormat := "", FullTimestamp := false, PadLevelText := false }
    Level := InfoLevel }

def Logger.SetLevel (logger : Logger) (level : PmLog.Level) : Logger :=
  { logger with Level := level }

def Logger.SetOutput (logger : Logger) (output : Sink) : Logger :=
  { logger with Out := output }

def Logger.SetFormatter (logger : Logger) (formatter : TextFormatter) : Logger :=
  { logger with Formatter := formatter }

def Logger.AddHook (logger : Logger) (hook : LfsHook) : Logger :=
  { logger with Hooks := logger.Hooks ++ [hook] }

/-- The logrus `IsLevelEnabled`: the logger's level is at least `level`. -/
def Logger.IsLevelEnabled (logger : Logger) (level : PmLog.Level) : Bool :=
  decide (level ≤ logger.Level)

/-- The logrus `Logger.Log` with fields: nothing for a level that is not
enabled; otherwise the entry is built, the hooks registered for its level fire,
the logger writes the entry to its output, and a panic-level entry panics. -/
def Logger.Log (logger : Logger) (now : Time) (data : Fields) (level : PmLog.Level)
    (message : String) : List Event :=
  if logger.IsLevelEnabled level then
    let entry : Entry := { Time := now, Level := level, Message := message, Data := data }
    let fired := (logger.Hooks.filter fun hook => hook.Levels.contains level).flatMap
      fun hook => hook.Fire entry
    fired ++ [Event.output logger.Out logger.Formatter entry] ++
      (if level ≤ PanicLevel then [Event.panic entry] else [])
  else []

/-- The logrus `Logger.Fatal`: log at fatal level, then `Exit(1)`. -/
def Logger.Fatal (logger : Logger) (now : Time) (message : String) : List Event :=
  logger.Log now [] FatalLevel message ++ [Event.exit 1]

/-! ## `init.go` and `com.go`: configuration, bootstrap, facade -/

/-- `func isDEV() bool` -/
def isDEV (environ : Environ) : Bool :=
  let env := Getenv environ "ENV"
  let env := if env = "" then Getenv environ "APP_ENV" else env
  let env := if env = "" then Getenv environ "env" else env
  ToLower env = "dev" || ToLower env = "development"

/-- `type LogConfig struct` (durations in nanoseconds). -/
structure LogConfig where
  LogDir : String
  MaxAge : Int
  RotationTime : Int
  RotationSize : Int
  EnableConsole : Bool
deriving DecidableEq, Repr

def LogDirName : String := "logs"
def LogMaxAge : Int := 20 * 24 * Hour
def LogRotationTime : Int := 24 * Hour
def LogRotationSize : Int := 5 * 1024 * 1024

/-- What the bootstrap asks of the system: the environment, whether
`os.MkdirAll(path, 0755)` fails (with which error), and whether
`rotatelogs.New` rejects a file-name template (with which error). -/
structure Sys where
  environ : Environ
  MkdirAll : String → Option String
  patternError : String → Option String

/-- The writer a successful `rotatelogs.New` returns for a template and the
options of a configuration: a negative option counts as 0, and a maximum age
of 0 (no rotation count being given) becomes the library's default of 7 days. -/
def rotatelogsWriter (pattern : String) (config : LogConfig) : RotateLogs :=
  { pattern := pattern
    maxAge := if config.MaxAge ≤ 0 then 7 * 24 * Hour else config.MaxAge
    rotationTime := if config.RotationTime < 0 then 0 else config.RotationTime
    rotationSize := if config.RotationSize < 0 then 0 else config.RotationSize }

/-- `rotatelogs.New(pattern, WithMaxAge(..), WithRotationTime(..),
WithRotationSize(..))` with the options of a configuration. -/
def rotatelogsNew (sys : Sys) (pattern : String) (config : LogConfig) :
    Except String RotateLogs :=
  match sys.patternError pattern with
  | some err => .error err
  | none => .ok (rotatelogsWriter pattern config)

/-- The package's variables, and what it has printed with `fmt.Printf`. -/
structure State where
  defaultLogConfig : LogConfig
  ComLoggerClient : Option Logger
  AccessLoggerClient : Option Logger
  printed : List String
deriving Repr

/-- The variables before the package's `init` has run. -/
def State.initial : State :=
  { defaultLogConfig :=
      { LogDir := Join [".", LogDirName]
        MaxAge := LogMaxAge
        RotationTime := LogRotationTime
        RotationSize := LogRotationSize
        EnableConsole := true }
    ComLoggerClient := none
    AccessLoggerClient := none
    printed := [] }

/-- `func GetDefaultConfig() LogConfig` -/
def GetDefaultConfig (st : State) : LogConfig :=
  st.defaultLogConfig

/-- The console formatter both channels install in a development environment. -/
def devTextFormatter : TextFormatter :=
  { TimestampFormat := "2006-01-02 15:04:05", FullTimestamp := true, PadLevelText := true }

/-- The tail of `initLog` and `initAccessLog`: console output in a development
environment, file descriptor 0 otherwise. -/
def setConsole (sys : Sys) (logger : Logger) : Logger :=
  if isDEV sys.environ then
    (logger.SetFormatter devTextFormatter).SetOutput Sink.stdout
  else
    logger.SetOutput Sink.fd0DevNull

/-- The `writeMap` of `initLog`. -/
def comWriteMap (logInfoWriter logErrorWriter : RotateLogs) : WriterMap :=
  [ (InfoLevel, logInfoWriter),
    (ErrorLevel, logErrorWriter),
    (WarnLevel, logInfoWriter) ]

/-- The `writeMap` of `initAccessLog`. -/
def accessWriteMap (logInfoWriter : RotateLogs) : WriterMap :=
  [ (InfoLevel, logInfoWriter) ]

/-- `func initLog()` -/
def initLog (sys : Sys) (st : State) : State :=
  let logger := Logger.New
  match sys.MkdirAll st.defaultLogConfig.LogDir with
  | some err =>
    { st with
      ComLoggerClient := some logger
      printed := st.printed ++ [Sprintf "Failed to create log directory: %v\n" [err]] }
  | none =>
    let logger := logger.SetLevel InfoLevel
    let logInfoPath := Join [st.defaultLogConfig.LogDir, "info.%Y-%m-%d.log"]
    match rotatelogsNew sys logInfoPath st.defaultLogConfig with
    | .error err =>
      { st with
        ComLoggerClient := some logger
        printed := st.printed ++ [Sprintf "Failed to create info log writer: %v\n" [err]] }
    | .ok logInfoWriter =>
      let logErrorPath := Join [st.defaultLogConfig.LogDir, "error.%Y-%m-%d.log"]
      match rotatelogsNew sys logErrorPath st.defaultLogConfig with
      | .error err =>
        { st with
          ComLoggerClient := some logger
          printed := st.printed ++ [Sprintf "Failed to create error log writer: %v\n" [err]] }
      | .ok logErrorWriter =>
        let writeMap := comWriteMap logInfoWriter logErrorWriter
        let lfHook := NewHook writeMap HookFormatter.com
        let logger := logger.AddHook lfHook
        { st with ComLoggerClient := some (setConsole sys logger) }

/-- `func initAccessLog()` -/
def initAccessLog (sys : Sys) (st : State) : State :=
  let logger := Logger.New
  match sys.MkdirAll st.defaultLogConfig.LogDir with
  | some err =>
    { st with
      AccessLoggerClient := some logger
      printed := st.printed ++ [Sprintf "Failed to create log directory: %v\n" [err]] }
  | none =>
    let logger := logger.SetLevel InfoLevel
    let logAccessPath := Join [st.defaultLogConfig.LogDir, "access.%Y-%m-%d.log"]
    match rotatelogsNew sys logAccessPath st.defaultLogConfig with
    | .error err =>
      { st with
        AccessLoggerClient := some logger
        printed := st.printed ++ [Sprintf "Failed to create access log writer: %v\n" [err]] }
    | .ok logInfoWriter =>
      let writeMap := accessWriteMap logInfoWriter
      let lfHook := NewHook writeMap HookFormatter.access
      let logger := logger.AddHook lfHook
      { st with AccessLoggerClient := some (setConsole sys logger) }

/-- `func SetConfig(config LogConfig)` -/
def SetConfig (sys : Sys) (st : State) (config : LogConfig) : State :=
  let st := { st with defaultLogConfig := config }
  let st := initLog sys st
  initAccessLog sys st

/-- The package's `func init()`. -/
def init (sys : Sys) : State :=
  initAccessLog sys (initLog sys State.initial)

/-- The logger's output is `os.NewFile(0, os.DevNull)`. -/
def holdsFd0 (client : Option Logger) : Bool :=
  match client with
  | some logger => decide (logger.Out = Sink.fd0DevNull)
  | none => false

/-- Garbage collection after `SetConfig` has replaced the loggers of the state
`old`: a wrapper of descriptor 0 that a replaced logger held is unreachable,
and its finalizer closes descriptor 0. -/
def Proc.collect (p : Proc) (old : State) : Proc :=
  if holdsFd0 old.ComLoggerClient || holdsFd0 old.AccessLoggerClient then p.finalizeFd0
  else p

/-- The facade's guard `if ComLoggerClient != nil { ComLoggerClient.<emit> }`. -/
def withClient (client : Option Logger) (emit : Logger → List Event) : List Event :=
  match client with
  | some logger => emit logger
  | none => []

/-- `func Info(args ...any)`; `message` is `fmt.Sprint(args...)`. -/
def Info (st : State) (now : Time) (message : String) : List Event :=
  withClient st.ComLoggerClient fun logger => logger.Log now [] InfoLevel message

/-- `func Infof(format string, args ...any)`; `message` is
`fmt.Sprintf(format, args...)`. -/
def Infof (st : State) (now : Time) (message : String) : List Event :=
  withClient st.ComLoggerClient fun logger => logger.Log now [] InfoLevel message

/-- `func Error(args ...any)` -/
def Error (st : State) (now : Time) (message : String) : List Event :=
  withClient st.ComLoggerClient fun logger => logger.Log now [] ErrorLevel message

/-- `func Errorf(format string, args ...any)` -/
def Errorf (st : State) (now : Time) (message : String) : List Event :=
  withClient st.ComLoggerClient fun logger => logger.Log now [] ErrorLevel message

/-- `func Warn(args ...any)` -/
def Warn (st : State) (now : Time) (message : String) : List Event :=
  withClient st.ComLoggerClient fun logger => logger.Log now [] WarnLevel message

/-- `func Warnf(format string, args ...any)` -/
def Warnf (st : State) (now : Time) (message : String) : List Event :=
  withClient st.ComLoggerClient fun logger => logger.Log now [] WarnLevel message

/-- `func Debug(args ...any)` -/
def Debug (st : State) (now : Time) (message : String) : List Event :=
  withClient st.ComLoggerClient fun logger => logger.Log now [] DebugLevel message

/-- `func Debugf(format string, args ...any)` -/
def Debugf (st : State) (now : Time) (message : String) : List Event :=
  withClient st.ComLoggerClient fun logger => logger.Log now [] DebugLevel message

/-- `func Fatal(args ...any)` -/
def Fatal (st : State) (now : Time) (message : String) : List Event :=
  withClient st.ComLoggerClient fun logger => logger.Fatal now message

/-- `func Fatalf(format string, args ...any)` -/
def Fatalf (st : State) (now : Time) (message : String) : List Event :=
  withClient st.ComLoggerClient fun logger => logger.Fatal now message

/-- `func Panic(args ...any)` -/
def Panic (st : State) (now : Time) (message : String) : List Event :=
  withClient st.ComLoggerClient fun logger => logger.Log now [] PanicLevel message

/-- `func Panicf(format string, args ...any)` -/
def Panicf (st : State) (now : Time) (message : String) : List Event :=
  withClient st.ComLoggerClient fun logger => logger.Log now [] PanicLevel message

/-- `func AccessInfo(message string, fields map[string]any)` -/
def AccessInfo (st : State) (now : Time) (message : String) (fields : Fields) : List Event :=
  withClient st.AccessLoggerClient fun logger =>
    logger.Log now (WithFields fields) InfoLevel message

/-- `func AccessInfof(fields map[string]any, format string, args ...any)`;
`message` is `fmt.Sprintf(format, args...)`. -/
def AccessInfof (st : State) (now : Time) (fields : Fields) (message : String) : List Event :=
  withClient st.AccessLoggerClient fun logger =>
    logger.Log now (WithFields fields) InfoLevel message

/-! ## The specification's reading of the environment gate -/

/-- Specification side: the environment name, the first non-empty value among
`ENV`, `APP_ENV` and `env` in that order, empty when none is set to a non-empty
value. -/
def specEnvironmentName (environ : Environ) : String :=
  ((["ENV", "APP_ENV", "env"].map (Getenv environ)).find? fun v => v ≠ "").getD ""

/-- Specification side: a character's code point, an upper-case ASCII letter
counted as its lower-case letter. -/
def specFoldCase (c : Char) : Nat :=
  if 65 ≤ c.toNat ∧ c.toNat ≤ 90 then c.toNat + 32 else c.toNat

/-- Specification side: two strings are equal compared case-insensitively. -/
def specEqualFold (s t : String) : Prop :=
  s.toList.map specFoldCase = t.toList.map specFoldCase

instance (s t : String) : Decidable (specEqualFold s t) := by
  unfold specEqualFold
  exact inferInstance

/-! ## Predicates the lemmas are stated with -/

/-- A file name as the package passes it to `filepath.Join`: not empty, without
slash, and neither `.` nor `..`. -/
def baseName (name : List Char) : Prop :=
  name ≠ [] ∧ '/' ∉ name ∧ name ≠ ['.'] ∧ name ≠ ['.', '.']

instance (name : List Char) : Decidable (baseName name) := by
  unfold baseName
  exact inferInstance

/-- A lower-case ASCII letter other than `i` and `k`, the two letters that are
the lower case of a rune outside ASCII. -/
def plainLower (d : Char) : Prop :=
  97 ≤ d.toNat ∧ d.toNat ≤ 122 ∧ d.toNat ≠ 105 ∧ d.toNat ≠ 107

instance (d : Char) : Decidable (plainLower d) := by
  unfold plainLower
  exact inferInstance

/-! ## Lemmas on the library models -/

theorem sprintf_plain (a b c : String) :
    Sprintf "[%s] [%s] %s" [a, b, c] = "[" ++ a ++ "] [" ++ b ++ "] " ++ c := by
  apply String.ext
  simp [Sprintf, sprintfAux, String.singleton]

theorem sprintf_access (t a b c d e m : String) :
    Sprintf "[%s] [%s] [%s] [%s] [%s] [%s] %s" [t, a, b, c, d, e, m] =
      "[" ++ t ++ "] [" ++ a ++ "] [" ++ b ++ "] [" ++ c ++ "] [" ++ d ++ "] [" ++ e ++
        "] " ++ m := by
  apply String.ext
  simp [Sprintf, sprintfAux, String.singleton]

theorem Time_Format_layout (t : Time) :
    t.Format "2006-01-02 15:04:05" =
      appendInt t.year 4 ++ "-" ++ zeroPad 2 t.month ++ "-" ++ zeroPad 2 t.day ++ " " ++
        zeroPad 2 t.hour ++ ":" ++ zeroPad 2 t.minute ++ ":" ++ zeroPad 2 t.second := by
  apply String.ext
  simp [Time.Format, formatLayout, String.singleton]

theorem getStringValue_absent (data : Fields) (key d : String)
    (h : data.get key = none) : getStringValue data key d = d := by
  simp [getStringValue, h]

theorem getStringValue_str (data : Fields) (key d s : String)
    (h : data.get key = some (Value.str s)) : getStringValue data key d = s := by
  simp [getStringValue, h, Value.asString]

theorem getStringValue_other (data : Fields) (key d : String) (v : Value)
    (h : data.get key = some v) (hv : v.asString = none) :
    getStringValue data key d = v.sprintV := by
  simp [getStringValue, h, hv]

theorem AccessFormatter_Format_eq (entry : Entry) :
    AccessFormatter.Format entry = .ok ("[" ++ entry.Time.Format "2006-01-02 15:04:05" ++
      "] [" ++ getStringValue entry.Data "ip" "0.0.0.0" ++
      "] [" ++ getStringValue entry.Data "method" "GET" ++
      "] [" ++ getStringValue entry.Data "url" "/" ++
      "] [" ++ getStringValue entry.Data "status_code" "200" ++
      "] [" ++ getStringValue entry.Data "response_size" "0" ++
      "] " ++ entry.Message ++ "\n") := by
  simp [AccessFormatter.Format, sprintf_access]

/-! ## The formatters -/

/-- C3: the plain formatter never fails, whatever the entry's fields; its line
is the timestamp as four-digit year, month, day, a blank, hour, minute and
second (two digits each, `-` and `:` between them) in brackets, a blank, the
level's name in brackets, a blank, the message as it is, and one newline.  The
names of the seven levels are panic, fatal, error, warning, info, debug and
trace; a warn entry of 5 March 2024, 07:08:09 with message `disk %s` and one
field gives `[2024-03-05 07:08:09] [warning] disk %s` and a newline. -/
theorem ComLogFormatter_Format_line (entry : Entry) :
    ComLogFormatter.Format entry = .ok ("[" ++
      (appendInt entry.Time.year 4 ++ "-" ++ zeroPad 2 entry.Time.month ++ "-" ++
        zeroPad 2 entry.Time.day ++ " " ++ zeroPad 2 entry.Time.hour ++ ":" ++
        zeroPad 2 entry.Time.minute ++ ":" ++ zeroPad 2 entry.Time.second) ++
      "] [" ++ Level.String entry.Level ++ "] " ++ entry.Message ++ "\n") ∧
    (Level.String PanicLevel = "panic" ∧ Level.String FatalLevel = "fatal" ∧
      Level.String ErrorLevel = "error" ∧ Level.String WarnLevel = "warning" ∧
      Level.String InfoLevel = "info" ∧ Level.String DebugLevel = "debug" ∧
      Level.String TraceLevel = "trace") ∧
    (appendInt 2024 4 = "2024" ∧ appendInt 987 4 = "0987" ∧ zeroPad 2 7 = "07" ∧
      zeroPad 2 59 = "59") ∧
    ComLogFormatter.Format
        { Time := ⟨2024, 3, 5, 7, 8, 9⟩, Level := WarnLevel, Message := "disk %s",
          Data := [("ip", .str "10.0.0.7")] } =
      .ok "[2024-03-05 07:08:09] [warning] disk %s\n" ∧
    ComLogFormatter.Format
        { Time := ⟨1999, 12, 31, 23, 59, 0⟩, Level := ErrorLevel, Message := "",
          Data := [] } =
      .ok "[1999-12-31 23:59:00] [error] \n" := by
  refine ⟨?_, ⟨rfl, rfl, rfl, rfl, rfl, rfl, rfl⟩, ⟨rfl, rfl, rfl, rfl⟩, rfl, rfl⟩
  simp only [ComLogFormatter.Format, sprintf_plain, Time_Format_layout]

/-- C1: with no fields the access formatter returns the line of the five
defaults; for every entry the line is built from the five slots, and a slot
whose key is absent from the fields holds the default. -/
theorem AccessFormatter_Format_defaults (entry : Entry) :
    (entry.Data = [] →
      AccessFormatter.Format entry = .ok ("[" ++ entry.Time.Format "2006-01-02 15:04:05" ++
        "] [0.0.0.0] [GET] [/] [200] [0] " ++ entry.Message ++ "\n")) ∧
    AccessFormatter.Format entry = .ok ("[" ++ entry.Time.Format "2006-01-02 15:04:05" ++
      "] [" ++ getStringValue entry.Data "ip" "0.0.0.0" ++
      "] [" ++ getStringValue entry.Data "method" "GET" ++
      "] [" ++ getStringValue entry.Data "url" "/" ++
      "] [" ++ getStringValue entry.Data "status_code" "200" ++
      "] [" ++ getStringValue entry.Data "response_size" "0" ++
      "] " ++ entry.Message ++ "\n") ∧
    (entry.Data.get "ip" = none → getStringValue entry.Data "ip" "0.0.0.0" = "0.0.0.0") ∧
    (entry.Data.get "method" = none → getStringValue entry.Data "method" "GET" = "GET") ∧
    (entry.Data.get "url" = none → getStringValue entry.Data "url" "/" = "/") ∧
    (entry.Data.get "status_code" = none →
      getStringValue entry.Data "status_code" "200" = "200") ∧
    (entry.Data.get "response_size" = none →
      getStringValue entry.Data "response_size" "0" = "0") := by
  refine ⟨?_, AccessFormatter_Format_eq entry, ?_, ?_, ?_, ?_, ?_⟩
  · intro h
    rw [AccessFormatter_Format_eq, h]
    simp only [getStringValue, Fields.get, List.lookup]
    refine congrArg Except.ok ?_
    apply String.ext
    simp
  all_goals
    intro h
    exact getStringValue_absent _ _ _ h

theorem AccessFormatter_Format_defaults_witness :
    AccessFormatter.Format
        { Time := ⟨2024, 3, 5, 7, 8, 9⟩, Level := InfoLevel, Message := "GET /index", Data := [] } =
      .ok "[2024-03-05 07:08:09] [0.0.0.0] [GET] [/] [200] [0] GET /index\n" :=
  (AccessFormatter_Format_defaults
    { Time := ⟨2024, 3, 5, 7, 8, 9⟩, Level := InfoLevel, Message := "GET /index", Data := [] }).1 rfl

/-- C2: when the five keys ip, method, url, status_code and response_size are
all bound to strings, the access formatter returns the timestamp and the five
values, each in its own bracket and in that order, then the message and one
newline; the values and the message are copied verbatim. -/
theorem AccessFormatter_Format_all_strings (entry : Entry)
    (ip method url statusCode responseSize : String)
    (hip : entry.Data.get "ip" = some (Value.str ip))
    (hmethod : entry.Data.get "method" = some (Value.str method))
    (hurl : entry.Data.get "url" = some (Value.str url))
    (hstatus : entry.Data.get "status_code" = some (Value.str statusCode))
    (hsize : entry.Data.get "response_size" = some (Value.str responseSize)) :
    AccessFormatter.Format entry = .ok ("[" ++ entry.Time.Format "2006-01-02 15:04:05" ++ "] [" ++ ip ++
      "] [" ++ method ++ "] [" ++ url ++ "] [" ++ statusCode ++ "] [" ++ responseSize ++
      "] " ++ entry.Message ++ "\n") := by
  rw [AccessFormatter_Format_eq, getStringValue_str _ _ _ _ hip,
    getStringValue_str _ _ _ _ hmethod, getStringValue_str _ _ _ _ hurl,
    getStringValue_str _ _ _ _ hstatus, getStringValue_str _ _ _ _ hsize]

theorem AccessFormatter_Format_all_strings_witness :
    AccessFormatter.Format
        { Time := ⟨2024, 12, 31, 23, 59, 0⟩, Level := InfoLevel, Message := "served %s",
          Data := [("url", .str "/a b"), ("ip", .str "10.0.0.7"), ("method", .str "POST"),
            ("response_size", .str "512"), ("status_code", .str "201")] } =
      .ok "[2024-12-31 23:59:00] [10.0.0.7] [POST] [/a b] [201] [512] served %s\n" :=
  AccessFormatter_Format_all_strings
    { Time := ⟨2024, 12, 31, 23, 59, 0⟩, Level := InfoLevel, Message := "served %s",
      Data := [("url", .str "/a b"), ("ip", .str "10.0.0.7"), ("method", .str "POST"),
        ("response_size", .str "512"), ("status_code", .str "201")] }
    "10.0.0.7" "POST" "/a b" "201" "512" rfl rfl rfl rfl rfl

/-- C8: when a key is bound to a value that is not a string, the access
formatter still returns a line, and in it the slot of that key (whichever of
the five it is) holds the `%v` rendering of the value, not a default; the
renderings of the integers 404 and 1024 are `404` and `1024`. -/
theorem AccessFormatter_Format_non_string (entry : Entry) (key : String) (v : Value)
    (hget : entry.Data.get key = some v) (hv : v.asString = none) :
    AccessFormatter.Format entry = .ok ("[" ++ entry.Time.Format "2006-01-02 15:04:05" ++
      "] [" ++ (if "ip" = key then v.sprintV
        else getStringValue entry.Data "ip" "0.0.0.0") ++
      "] [" ++ (if "method" = key then v.sprintV
        else getStringValue entry.Data "method" "GET") ++
      "] [" ++ (if "url" = key then v.sprintV
        else getStringValue entry.Data "url" "/") ++
      "] [" ++ (if "status_code" = key then v.sprintV
        else getStringValue entry.Data "status_code" "200") ++
      "] [" ++ (if "response_size" = key then v.sprintV
        else getStringValue entry.Data "response_size" "0") ++
      "] " ++ entry.Message ++ "\n") ∧
    (∀ d : String, getStringValue entry.Data key d = v.sprintV) ∧
    Value.sprintV (Value.int 404) = "404" ∧ Value.sprintV (Value.int 1024) = "1024" := by
  have hslot : ∀ k d : String,
      (if k = key then v.sprintV else getStringValue entry.Data k d) =
        getStringValue entry.Data k d := by
    intro k d
    by_cases hk : k = key
    · subst hk
      rw [if_pos rfl, getStringValue_other _ _ _ _ hget hv]
    · rw [if_neg hk]
  refine ⟨?_, fun d => getStringValue_other _ _ _ _ hget hv, rfl, rfl⟩
  rw [hslot, hslot, hslot, hslot, hslot]
  exact AccessFormatter_Format_eq entry

theorem AccessFormatter_Format_non_string_witness :
    AccessFormatter.Format
        { Time := ⟨2024, 3, 5, 7, 8, 9⟩, Level := InfoLevel, Message := "not found",
          Data := [("status_code", .int 404), ("response_size", .int 1024)] } =
      .ok "[2024-03-05 07:08:09] [0.0.0.0] [GET] [/] [404] [1024] not found\n" :=
  (AccessFormatter_Format_non_string
    { Time := ⟨2024, 3, 5, 7, 8, 9⟩, Level := InfoLevel, Message := "not found",
      Data := [("status_code", .int 404), ("response_size", .int 1024)] }
    "status_code" (.int 404) rfl rfl).1

/-! ## The environment gate -/

theorem toNat_ofNat_small (m : Nat) (h : m < 55296) : (Char.ofNat m).toNat = m := by
  have hv : m.isValidChar := Or.inl h
  unfold Char.ofNat
  rw [dif_pos hv]
  rfl

theorem char_eq_of_toNat_eq {c d : Char} (h : c.toNat = d.toNat) : c = d := by
  have := congrArg Char.ofNat h
  simpa using this

theorem toLowerRune_eq_iff (c d : Char) (hd : plainLower d) :
    toLowerRune c = d ↔ specFoldCase c = d.toNat := by
  obtain ⟨h1, h2, h3, h4⟩ := hd
  unfold toLowerRune specFoldCase
  by_cases hup : 65 ≤ c.toNat ∧ c.toNat ≤ 90
  · rw [if_pos hup, if_pos hup]
    constructor
    · intro h
      rw [← h, toNat_ofNat_small _ (by omega)]
    · intro h
      rw [h, Char.ofNat_toNat]
  · rw [if_neg hup, if_neg hup]
    by_cases hk : c.toNat = 0x212A
    · rw [if_pos hk]
      constructor
      · intro h
        have : d.toNat = 107 := by rw [← h]; rfl
        omega
      · intro h
        omega
    · rw [if_neg hk]
      by_cases hi : c.toNat = 0x130
      · rw [if_pos hi]
        constructor
        · intro h
          have : d.toNat = 105 := by rw [← h]; rfl
          omega
        · intro h
          omega
      · rw [if_neg hi]
        constructor
        · intro h
          rw [h]
        · intro h
          exact char_eq_of_toNat_eq h

theorem specFoldCase_plainLower (d : Char) (hd : plainLower d) :
    specFoldCase d = d.toNat := by
  obtain ⟨h1, _, _, _⟩ := hd
  unfold specFoldCase
  rw [if_neg (by omega)]

theorem map_toLowerRune_eq_iff (l t : List Char) (ht : ∀ d ∈ t, plainLower d) :
    l.map toLowerRune = t ↔ l.map specFoldCase = t.map specFoldCase := by
  induction l generalizing t with
  | nil => cases t <;> simp
  | cons c cs ih =>
    cases t with
    | nil => simp
    | cons d ds =>
      have hd : plainLower d := ht d (List.mem_cons_self _ _)
      have hds : ∀ x ∈ ds, plainLower x := fun x hx => ht x (List.mem_cons_of_mem _ hx)
      simp only [List.map_cons, List.cons.injEq]
      rw [toLowerRune_eq_iff c d hd, ih ds hds, specFoldCase_plainLower d hd]

theorem ToLower_eq_iff (s t : String) (ht : ∀ d ∈ t.toList, plainLower d) :
    ToLower s = t ↔ specEqualFold s t := by
  unfold ToLower specEqualFold
  rw [← map_toLowerRune_eq_iff _ _ ht]
  constructor
  · intro h
    rw [← h]
    rfl
  · intro h
    exact String.ext h

theorem isDEV_eq_name (environ : Environ) :
    isDEV environ = (decide (ToLower (specEnvironmentName environ) = "dev") ||
      decide (ToLower (specEnvironmentName environ) = "development")) := by
  unfold isDEV specEnvironmentName
  by_cases h1 : Getenv environ "ENV" = ""
  · by_cases h2 : Getenv environ "APP_ENV" = ""
    · by_cases h3 : Getenv environ "env" = ""
      · simp [List.find?, h1, h2, h3]
      · simp [List.find?, h1, h2, h3]
    · simp [List.find?, h1, h2]
  · simp [List.find?, h1]

theorem isDEV_iff_name (environ : Environ) :
    isDEV environ = true ↔
      specEqualFold (specEnvironmentName environ) "dev" ∨
        specEqualFold (specEnvironmentName environ) "development" := by
  have hdev : ∀ d ∈ "dev".toList, plainLower d := by decide
  have hdevelopment : ∀ d ∈ "development".toList, plainLower d := by decide
  rw [isDEV_eq_name, Bool.or_eq_true, decide_eq_true_iff, decide_eq_true_iff,
    ToLower_eq_iff _ _ hdev, ToLower_eq_iff _ _ hdevelopment]

/-- C5: `isDEV` is true exactly when the environment name (the first non-empty
value of ENV, APP_ENV, env in that order) equals dev or development compared
case-insensitively; ENV=Development gives true, ENV=production gives false, all
three unset gives false, and a non-empty ENV that is neither decides alone,
whatever APP_ENV and env hold; a bootstrap that succeeds sets the logger's
output to standard output exactly when `isDEV` is true. -/
theorem isDEV_spec (environ : Environ) :
    (isDEV environ = true ↔
      specEqualFold (specEnvironmentName environ) "dev" ∨
        specEqualFold (specEnvironmentName environ) "development") ∧
    (environ "ENV" = some "Development" → isDEV environ = true) ∧
    (environ "ENV" = some "production" → isDEV environ = false) ∧
    (environ "ENV" = none → environ "APP_ENV" = none → environ "env" = none →
      isDEV environ = false) ∧
    (Getenv environ "ENV" ≠ "" → ¬ specEqualFold (Getenv environ "ENV") "dev" →
      ¬ specEqualFold (Getenv environ "ENV") "development" → isDEV environ = false) ∧
    (∀ (sys : Sys) (logger : Logger), sys.environ = environ →
      ((setConsole sys logger).Out = Sink.stdout ↔ isDEV environ = true)) := by
  refine ⟨isDEV_iff_name environ, ?_, ?_, ?_, ?_, ?_⟩
  · intro h
    have hname : specEnvironmentName environ = "Development" := by
      simp [specEnvironmentName, Getenv, h, List.find?]
    rw [isDEV_eq_name, hname]
    decide
  · intro h
    have hname : specEnvironmentName environ = "production" := by
      simp [specEnvironmentName, Getenv, h, List.find?]
    rw [isDEV_eq_name, hname]
    decide
  · intro h1 h2 h3
    have hname : specEnvironmentName environ = "" := by
      simp [specEnvironmentName, Getenv, h1, h2, h3, List.find?]
    rw [isDEV_eq_name, hname]
    decide
  · intro h hdev hdevelopment
    have hname : specEnvironmentName environ = Getenv environ "ENV" := by
      simp [specEnvironmentName, h, List.find?]
    have := isDEV_iff_name environ
    rw [hname] at this
    cases hb : isDEV environ with
    | false => rfl
    | true => exact absurd (this.mp hb) (by tauto)
  · intro sys logger h
    subst h
    unfold setConsole
    cases hb : isDEV sys.environ <;> simp [Logger.SetOutput, Logger.SetFormatter]

theorem isDEV_spec_witness :
    isDEV (fun key => if key = "ENV" then some "Development" else none) = true ∧
    isDEV (fun key => if key = "ENV" then some "staging" else some "dev") = false :=
  ⟨(isDEV_spec fun key => if key = "ENV" then some "Development" else none).2.1 rfl,
   (isDEV_spec fun key => if key = "ENV" then some "staging" else some "dev").2.2.2.2.1
     (by decide) (by decide) (by decide)⟩

/-! ## `filepath.Join` on a directory and a file name -/

theorem splitSlash_ne_nil (l : List Char) : splitSlash l ≠ [] := by
  cases l with
  | nil => simp [splitSlash]
  | cons c cs =>
    unfold splitSlash
    by_cases hc : c = '/'
    · simp [hc]
    · rw [if_neg hc]
      cases splitSlash cs <;> simp

theorem splitSlash_no_slash (n : List Char) (hn : '/' ∉ n) : splitSlash n = [n] := by
  induction n with
  | nil => rfl
  | cons c cs ih =>
    have hc : c ≠ '/' := fun h => hn (h ▸ List.mem_cons_self _ _)
    have hcs : '/' ∉ cs := fun h => hn (List.mem_cons_of_mem _ h)
    unfold splitSlash
    rw [if_neg hc, ih hcs]

theorem splitSlash_append (d n : List Char) (hn : '/' ∉ n) :
    splitSlash (d ++ '/' :: n) = splitSlash d ++ [n] := by
  induction d with
  | nil => simp [splitSlash, splitSlash_no_slash n hn]
  | cons c cs ih =>
    rw [List.cons_append]
    unfold splitSlash
    by_cases hc : c = '/'
    · rw [if_pos hc, if_pos hc, ih, List.cons_append]
    · rw [if_neg hc, if_neg hc, ih]
      cases h : splitSlash cs with
      | nil => exact absurd h (splitSlash_ne_nil cs)
      | cons piece pieces => rfl

theorem cleanStep_baseName (rooted : Bool) (kept : List (List Char)) (n : List Char)
    (hn : baseName n) : cleanStep rooted kept n = n :: kept := by
  obtain ⟨h1, _, h3, h4⟩ := hn
  unfold cleanStep
  rw [if_neg (by simp [h1, h3]), if_neg h4]

theorem joinSlash_append_singleton (l : List (List Char)) (n : List Char) :
    joinSlash (l ++ [n]) = (if l = [] then [] else joinSlash l ++ ['/']) ++ n := by
  induction l with
  | nil => simp [joinSlash]
  | cons e es ih =>
    cases es with
    | nil => simp [joinSlash]
    | cons e2 es2 =>
      have : joinSlash (e :: e2 :: es2 ++ [n]) = e ++ '/' :: joinSlash (e2 :: es2 ++ [n]) := by
        simp [joinSlash]
      rw [this, ih]
      simp [joinSlash]

theorem cleanChars_dir_name (d : List Char) (hd : d ≠ []) :
    ∃ pre : List Char, ∀ n : List Char, baseName n →
      cleanChars (d ++ '/' :: n) = pre ++ n := by
  refine ⟨(if d.head? = some '/' then ['/'] else []) ++
    (if ((splitSlash d).foldl (cleanStep (decide (d.head? = some '/'))) []).reverse = []
      then [] else joinSlash
        ((splitSlash d).foldl (cleanStep (decide (d.head? = some '/'))) []).reverse ++ ['/']),
    ?_⟩
  intro n hn
  have hhead : (d ++ '/' :: n).head? = d.head? := by
    cases d with
    | nil => exact absurd rfl hd
    | cons c cs => rfl
  have hne : n ≠ [] := hn.1
  unfold cleanChars
  simp only [hhead, splitSlash_append d n hn.2.1, List.foldl_append, List.foldl_cons,
    List.foldl_nil, cleanStep_baseName _ _ n hn, List.reverse_cons,
    joinSlash_append_singleton]
  rw [if_neg]
  · simp
  · simp [hne]

theorem cleanChars_name (n : List Char) (hn : baseName n) : cleanChars n = n := by
  obtain ⟨h1, h2, h3, h4⟩ := hn
  have hhead : ¬ n.head? = some '/' := by
    cases n with
    | nil => simp
    | cons c cs =>
      intro h
      simp at h
      exact h2 (h ▸ List.mem_cons_self _ _)
  unfold cleanChars
  simp [splitSlash_no_slash n h2, cleanStep_baseName _ _ n ⟨h1, h2, h3, h4⟩, hhead,
    joinSlash, h1]

/-- `filepath.Join(dir, name)` keeps a file name as the end of its result: for
every directory there is one prefix that the result puts before every name. -/
theorem Join_dir_name (dir : String) :
    ∃ pre : String, ∀ name : String, baseName name.toList →
      Join [dir, name] = pre ++ name := by
  by_cases hdir : dir = ""
  · refine ⟨"", ?_⟩
    intro name hn
    have hname : name ≠ "" := by
      intro h
      exact hn.1 (by rw [h]; rfl)
    subst hdir
    simp [Join, List.dropWhile, hname, Clean, String.intercalate,
      String.intercalate.go]
    rw [show cleanChars name.data = name.data from cleanChars_name _ hn]
  · have hd : dir.toList ≠ [] := by
      intro h
      exact hdir (String.ext h)
    obtain ⟨pre, hpre⟩ := cleanChars_dir_name dir.toList hd
    refine ⟨String.mk pre, ?_⟩
    intro name hn
    have happ : ("/".intercalate [dir, name]).toList = dir.toList ++ '/' :: name.toList := by
      simp [String.intercalate, String.intercalate.go]
    simp only [Join, List.dropWhile, hdir, decide_False, Clean, happ]
    rw [hpre _ hn]
    apply String.ext
    simp

/-! ## The routing tables -/

/-- The package's `init` is `SetConfig` with the initial configuration, so what
holds after every `SetConfig` holds after `init`. -/
theorem init_eq_SetConfig (sys : Sys) :
    init sys = SetConfig sys State.initial State.initial.defaultLogConfig :=
  rfl

theorem initLog_ok (sys : Sys) (st : State)
    (hdir : sys.MkdirAll st.defaultLogConfig.LogDir = none)
    (hinfo : sys.patternError (Join [st.defaultLogConfig.LogDir, "info.%Y-%m-%d.log"]) = none)
    (herror : sys.patternError
      (Join [st.defaultLogConfig.LogDir, "error.%Y-%m-%d.log"]) = none) :
    initLog sys st =
      { st with
        ComLoggerClient := some (setConsole sys
          ((Logger.New.SetLevel InfoLevel).AddHook (NewHook
            (comWriteMap
              (rotatelogsWriter (Join [st.defaultLogConfig.LogDir, "info.%Y-%m-%d.log"])
                st.defaultLogConfig)
              (rotatelogsWriter (Join [st.defaultLogConfig.LogDir, "error.%Y-%m-%d.log"])
                st.defaultLogConfig))
            HookFormatter.com))) } := by
  simp [initLog, hdir, rotatelogsNew, hinfo, herror]

theorem initAccessLog_ok (sys : Sys) (st : State)
    (hdir : sys.MkdirAll st.defaultLogConfig.LogDir = none)
    (haccess : sys.patternError
      (Join [st.defaultLogConfig.LogDir, "access.%Y-%m-%d.log"]) = none) :
    initAccessLog sys st =
      { st with
        AccessLoggerClient := some (setConsole sys
          ((Logger.New.SetLevel InfoLevel).AddHook (NewHook
            (accessWriteMap
              (rotatelogsWriter (Join [st.defaultLogConfig.LogDir, "access.%Y-%m-%d.log"])
                st.defaultLogConfig))
            HookFormatter.access))) } := by
  simp [initAccessLog, hdir, rotatelogsNew, haccess]

theorem initAccessLog_ComLoggerClient (sys : Sys) (st : State) :
    (initAccessLog sys st).ComLoggerClient = st.ComLoggerClient := by
  unfold initAccessLog
  cases sys.MkdirAll st.defaultLogConfig.LogDir with
  | some err => rfl
  | none =>
    simp only
    cases rotatelogsNew sys (Join [st.defaultLogConfig.LogDir, "access.%Y-%m-%d.log"])
      st.defaultLogConfig <;> rfl

theorem initLog_defaultLogConfig (sys : Sys) (st : State) :
    (initLog sys st).defaultLogConfig = st.defaultLogConfig := by
  unfold initLog
  cases sys.MkdirAll st.defaultLogConfig.LogDir with
  | some err => rfl
  | none =>
    simp only
    cases rotatelogsNew sys (Join [st.defaultLogConfig.LogDir, "info.%Y-%m-%d.log"])
      st.defaultLogConfig with
    | error err => rfl
    | ok w =>
      simp only
      cases rotatelogsNew sys (Join [st.defaultLogConfig.LogDir, "error.%Y-%m-%d.log"])
        st.defaultLogConfig <;> rfl

theorem setConsole_Hooks (sys : Sys) (logger : Logger) :
    (setConsole sys logger).Hooks = logger.Hooks := by
  unfold setConsole
  split <;> rfl

theorem setConsole_Level (sys : Sys) (logger : Logger) :
    (setConsole sys logger).Level = logger.Level := by
  unfold setConsole
  split <;> rfl

theorem writersOf_Log (logger : Logger) (now : Time) (data : Fields) (level : Level)
    (message : String) :
    writersOf (logger.Log now data level message) =
      if logger.IsLevelEnabled level then
        writersOf ((logger.Hooks.filter fun hook => hook.Levels.contains level).flatMap
          fun hook => hook.Fire
            { Time := now, Level := level, Message := message, Data := data })
      else [] := by
  unfold Logger.Log
  by_cases h : logger.IsLevelEnabled level = true
  · rw [if_pos h, if_pos h]
    by_cases hp : level ≤ PanicLevel
    · simp [writersOf, List.filterMap_append, Event.writer?, hp]
    · simp [writersOf, List.filterMap_append, Event.writer?, hp]
  · rw [if_neg h, if_neg h]
    rfl

theorem append_ne_of_ne (pre a b : String) (h : a ≠ b) : pre ++ a ≠ pre ++ b := by
  intro heq
  apply h
  have hdata := congrArg String.data heq
  simp only [String.data_append] at hdata
  exact String.ext (List.append_cancel_left hdata)

theorem templates_distinct (dir : String) :
    (∃ pre : String,
      Join [dir, "info.%Y-%m-%d.log"] = pre ++ "info.%Y-%m-%d.log" ∧
      Join [dir, "error.%Y-%m-%d.log"] = pre ++ "error.%Y-%m-%d.log" ∧
      Join [dir, "access.%Y-%m-%d.log"] = pre ++ "access.%Y-%m-%d.log") ∧
    Join [dir, "info.%Y-%m-%d.log"] ≠ Join [dir, "error.%Y-%m-%d.log"] ∧
    Join [dir, "info.%Y-%m-%d.log"] ≠ Join [dir, "access.%Y-%m-%d.log"] ∧
    Join [dir, "error.%Y-%m-%d.log"] ≠ Join [dir, "access.%Y-%m-%d.log"] := by
  obtain ⟨pre, hpre⟩ := Join_dir_name dir
  have hi := hpre "info.%Y-%m-%d.log" (by decide)
  have he := hpre "error.%Y-%m-%d.log" (by decide)
  have ha := hpre "access.%Y-%m-%d.log" (by decide)
  refine ⟨⟨pre, hi, he, ha⟩, ?_, ?_, ?_⟩
  · rw [hi, he]
    exact append_ne_of_ne _ _ _ (by decide)
  · rw [hi, ha]
    exact append_ne_of_ne _ _ _ (by decide)
  · rw [he, ha]
    exact append_ne_of_ne _ _ _ (by decide)

/-- C4: after a bootstrap that succeeds, a warn record and an info record of
the general channel are written to the same rotating writer, the one with the
template `Join(LogDir, "info.%Y-%m-%d.log")`; an error record goes to the writer
with the template `Join(LogDir, "error.%Y-%m-%d.log")`; an access record goes to
the writer with the template `Join(LogDir, "access.%Y-%m-%d.log")`; the three
templates are one directory prefix followed by the three file names, and for
every LogDir they are pairwise distinct. -/
theorem routing_table (sys : Sys) (st : State) (config : LogConfig) (now : Time)
    (message : String) (fields : Fields)
    (hdir : sys.MkdirAll config.LogDir = none)
    (hinfo : sys.patternError (Join [config.LogDir, "info.%Y-%m-%d.log"]) = none)
    (herror : sys.patternError (Join [config.LogDir, "error.%Y-%m-%d.log"]) = none)
    (haccess : sys.patternError (Join [config.LogDir, "access.%Y-%m-%d.log"]) = none) :
    writersOf (Info (SetConfig sys st config) now message) =
      [rotatelogsWriter (Join [config.LogDir, "info.%Y-%m-%d.log"]) config] ∧
    writersOf (Warn (SetConfig sys st config) now message) =
      [rotatelogsWriter (Join [config.LogDir, "info.%Y-%m-%d.log"]) config] ∧
    writersOf (Error (SetConfig sys st config) now message) =
      [rotatelogsWriter (Join [config.LogDir, "error.%Y-%m-%d.log"]) config] ∧
    writersOf (AccessInfo (SetConfig sys st config) now message fields) =
      [rotatelogsWriter (Join [config.LogDir, "access.%Y-%m-%d.log"]) config] ∧
    (∃ pre : String,
      Join [config.LogDir, "info.%Y-%m-%d.log"] = pre ++ "info.%Y-%m-%d.log" ∧
      Join [config.LogDir, "error.%Y-%m-%d.log"] = pre ++ "error.%Y-%m-%d.log" ∧
      Join [config.LogDir, "access.%Y-%m-%d.log"] = pre ++ "access.%Y-%m-%d.log") ∧
    Join [config.LogDir, "info.%Y-%m-%d.log"] ≠ Join [config.LogDir, "error.%Y-%m-%d.log"] ∧
    Join [config.LogDir, "info.%Y-%m-%d.log"] ≠ Join [config.LogDir, "access.%Y-%m-%d.log"] ∧
    Join [config.LogDir, "error.%Y-%m-%d.log"] ≠
      Join [config.LogDir, "access.%Y-%m-%d.log"] := by
  have hcom : (SetConfig sys st config).ComLoggerClient =
      some (setConsole sys ((Logger.New.SetLevel InfoLevel).AddHook (NewHook
        (comWriteMap (rotatelogsWriter (Join [config.LogDir, "info.%Y-%m-%d.log"]) config)
          (rotatelogsWriter (Join [config.LogDir, "error.%Y-%m-%d.log"]) config))
        HookFormatter.com))) := by
    unfold SetConfig
    simp only [initAccessLog_ComLoggerClient]
    rw [initLog_ok sys _ hdir hinfo herror]
  have hacc : (SetConfig sys st config).AccessLoggerClient =
      some (setConsole sys ((Logger.New.SetLevel InfoLevel).AddHook (NewHook
        (accessWriteMap
          (rotatelogsWriter (Join [config.LogDir, "access.%Y-%m-%d.log"]) config))
        HookFormatter.access))) := by
    unfold SetConfig
    simp only
    rw [initAccessLog_ok sys _ (by rw [initLog_defaultLogConfig]; exact hdir)
      (by rw [initLog_defaultLogConfig]; exact haccess)]
    simp only [initLog_defaultLogConfig]
  refine ⟨?_, ?_, ?_, ?_, templates_distinct config.LogDir⟩
  · simp only [Info, hcom, withClient, writersOf_Log, setConsole_Hooks, setConsole_Level]
    simp [setConsole_Hooks, setConsole_Level, Logger.IsLevelEnabled, Logger.New, Logger.SetLevel, Logger.AddHook, NewHook,
      LfsHook.Levels, AllLevels, PanicLevel, FatalLevel, DebugLevel, TraceLevel, comWriteMap, InfoLevel, ErrorLevel, WarnLevel, LfsHook.Fire,
      List.lookup, HookFormatter.Format, ComLogFormatter.Format, writersOf, Event.writer?]
  · simp only [Warn, hcom, withClient, writersOf_Log, setConsole_Hooks, setConsole_Level]
    simp [setConsole_Hooks, setConsole_Level, Logger.IsLevelEnabled, Logger.New, Logger.SetLevel, Logger.AddHook, NewHook,
      LfsHook.Levels, AllLevels, PanicLevel, FatalLevel, DebugLevel, TraceLevel, comWriteMap, InfoLevel, ErrorLevel, WarnLevel, LfsHook.Fire,
      List.lookup, HookFormatter.Format, ComLogFormatter.Format, writersOf, Event.writer?]
  · simp only [Error, hcom, withClient, writersOf_Log, setConsole_Hooks, setConsole_Level]
    simp [setConsole_Hooks, setConsole_Level, Logger.IsLevelEnabled, Logger.New, Logger.SetLevel, Logger.AddHook, NewHook,
      LfsHook.Levels, AllLevels, PanicLevel, FatalLevel, DebugLevel, TraceLevel, comWriteMap, InfoLevel, ErrorLevel, WarnLevel, LfsHook.Fire,
      List.lookup, HookFormatter.Format, ComLogFormatter.Format, writersOf, Event.writer?]
  · simp only [AccessInfo, hacc, withClient, writersOf_Log, setConsole_Hooks, setConsole_Level]
    simp [setConsole_Hooks, setConsole_Level, Logger.IsLevelEnabled, Logger.New, Logger.SetLevel, Logger.AddHook, NewHook,
      LfsHook.Levels, AllLevels, PanicLevel, FatalLevel, ErrorLevel, WarnLevel, DebugLevel, TraceLevel, accessWriteMap, InfoLevel, LfsHook.Fire,
      List.lookup, HookFormatter.Format, AccessFormatter.Format, writersOf, Event.writer?]

theorem routing_table_witness :
    writersOf (Warn
        (SetConfig ⟨fun _ => none, fun _ => none, fun _ => none⟩ State.initial
          State.initial.defaultLogConfig)
        ⟨2024, 3, 5, 7, 8, 9⟩ "disk almost full") =
      [{ pattern := "logs/info.%Y-%m-%d.log", maxAge := LogMaxAge,
         rotationTime := LogRotationTime, rotationSize := LogRotationSize }] ∧
    writersOf (Error
        (SetConfig ⟨fun _ => none, fun _ => none, fun _ => none⟩ State.initial
          State.initial.defaultLogConfig)
        ⟨2024, 3, 5, 7, 8, 9⟩ "disk full") =
      [{ pattern := "logs/error.%Y-%m-%d.log", maxAge := LogMaxAge,
         rotationTime := LogRotationTime, rotationSize := LogRotationSize }] :=
  ⟨(routing_table ⟨fun _ => none, fun _ => none, fun _ => none⟩ State.initial
      State.initial.defaultLogConfig ⟨2024, 3, 5, 7, 8, 9⟩ "disk almost full" []
      rfl rfl rfl rfl).2.1,
   (routing_table ⟨fun _ => none, fun _ => none, fun _ => none⟩ State.initial
      State.initial.defaultLogConfig ⟨2024, 3, 5, 7, 8, 9⟩ "disk full" []
      rfl rfl rfl rfl).2.2.1⟩

/-! ## What the general channel writes to files -/

theorem initLog_client (sys : Sys) (st : State) :
    (initLog sys st).ComLoggerClient = some Logger.New ∨
    (initLog sys st).ComLoggerClient = some (Logger.New.SetLevel InfoLevel) ∨
    ∃ logInfoWriter logErrorWriter : RotateLogs,
      (initLog sys st).ComLoggerClient =
        some (setConsole sys ((Logger.New.SetLevel InfoLevel).AddHook
          (NewHook (comWriteMap logInfoWriter logErrorWriter) HookFormatter.com))) := by
  unfold initLog
  cases sys.MkdirAll st.defaultLogConfig.LogDir with
  | some err => exact Or.inl rfl
  | none =>
    simp only
    cases rotatelogsNew sys (Join [st.defaultLogConfig.LogDir, "info.%Y-%m-%d.log"])
      st.defaultLogConfig with
    | error err => exact Or.inr (Or.inl rfl)
    | ok wi =>
      simp only
      cases rotatelogsNew sys (Join [st.defaultLogConfig.LogDir, "error.%Y-%m-%d.log"])
        st.defaultLogConfig with
      | error err => exact Or.inr (Or.inl rfl)
      | ok we => exact Or.inr (Or.inr ⟨wi, we, rfl⟩)

theorem SetConfig_client (sys : Sys) (st : State) (config : LogConfig) :
    (SetConfig sys st config).ComLoggerClient = some Logger.New ∨
    (SetConfig sys st config).ComLoggerClient = some (Logger.New.SetLevel InfoLevel) ∨
    ∃ logInfoWriter logErrorWriter : RotateLogs,
      (SetConfig sys st config).ComLoggerClient =
        some (setConsole sys ((Logger.New.SetLevel InfoLevel).AddHook
          (NewHook (comWriteMap logInfoWriter logErrorWriter) HookFormatter.com))) := by
  unfold SetConfig
  simp only [initAccessLog_ComLoggerClient]
  exact initLog_client sys _

theorem writersOf_append (a b : List Event) :
    writersOf (a ++ b) = writersOf a ++ writersOf b := by
  simp [writersOf, List.filterMap_append]

theorem client_no_file (sys : Sys) (client : Option Logger) (now : Time) (message : String)
    (level : Level) (hlevel : level = PanicLevel ∨ level = FatalLevel ∨ level = DebugLevel)
    (hclient : client = some Logger.New ∨
      client = some (Logger.New.SetLevel InfoLevel) ∨
      ∃ logInfoWriter logErrorWriter : RotateLogs,
        client = some (setConsole sys ((Logger.New.SetLevel InfoLevel).AddHook
          (NewHook (comWriteMap logInfoWriter logErrorWriter) HookFormatter.com)))) :
    writersOf (withClient client fun logger => logger.Log now [] level message) = [] := by
  rcases hclient with h | h | ⟨wi, we, h⟩
  · subst h
    simp only [withClient, writersOf_Log]
    simp [Logger.New, writersOf]
  · subst h
    simp only [withClient, writersOf_Log]
    simp [Logger.New, Logger.SetLevel, writersOf]
  · subst h
    simp only [withClient, writersOf_Log, setConsole_Hooks, setConsole_Level]
    rcases hlevel with hl | hl | hl <;> subst hl <;>
      simp [Logger.IsLevelEnabled, Logger.New, Logger.SetLevel, Logger.AddHook, NewHook,
        LfsHook.Levels, AllLevels, TraceLevel, comWriteMap, InfoLevel, ErrorLevel,
        WarnLevel, PanicLevel, FatalLevel, DebugLevel, writersOf, setConsole_Level,
        setConsole_Hooks, LfsHook.Fire, List.lookup]

theorem client_debug_nothing (sys : Sys) (client : Option Logger) (now : Time)
    (message : String)
    (hclient : client = some Logger.New ∨
      client = some (Logger.New.SetLevel InfoLevel) ∨
      ∃ logInfoWriter logErrorWriter : RotateLogs,
        client = some (setConsole sys ((Logger.New.SetLevel InfoLevel).AddHook
          (NewHook (comWriteMap logInfoWriter logErrorWriter) HookFormatter.com)))) :
    (withClient client fun logger => logger.Log now [] DebugLevel message) = [] := by
  rcases hclient with h | h | ⟨wi, we, h⟩
  · subst h
    simp [withClient, Logger.Log, Logger.IsLevelEnabled, Logger.New, InfoLevel, DebugLevel]
  · subst h
    simp [withClient, Logger.Log, Logger.IsLevelEnabled, Logger.New, Logger.SetLevel,
      InfoLevel, DebugLevel]
  · subst h
    simp [withClient, Logger.Log, Logger.IsLevelEnabled, setConsole_Level, Logger.New,
      Logger.SetLevel, Logger.AddHook, InfoLevel, DebugLevel]

theorem comWriteMap_levels (wi we : RotateLogs) (level : Level) :
    (List.lookup level (comWriteMap wi we)).isSome = true ↔
      level = InfoLevel ∨ level = WarnLevel ∨ level = ErrorLevel := by
  unfold comWriteMap InfoLevel WarnLevel ErrorLevel
  by_cases h4 : level = 4
  · subst h4
    simp [List.lookup]
  · by_cases h2 : level = 2
    · subst h2
      simp [List.lookup]
    · by_cases h3 : level = 3
      · subst h3
        simp [List.lookup]
      · have e4 : (level == 4) = false := by simpa using h4
        have e2 : (level == 2) = false := by simpa using h2
        have e3 : (level == 3) = false := by simpa using h3
        simp [List.lookup, e4, e2, e3, h4, h2, h3]

theorem client_fatal_exits (client : Option Logger) (logger : Logger) (now : Time)
    (message : String) (hclient : client = some logger) :
    (withClient client fun logger => logger.Fatal now message).getLast? =
      some (Event.exit 1) := by
  subst hclient
  simp [withClient, Logger.Fatal]

theorem client_panic_panics (client : Option Logger) (logger : Logger) (now : Time)
    (message : String) (hclient : client = some logger) :
    (withClient client fun logger => logger.Log now [] PanicLevel message).getLast? =
      some (Event.panic
        { Time := now, Level := PanicLevel, Message := message, Data := [] }) := by
  subst hclient
  simp [withClient, Logger.Log, Logger.IsLevelEnabled, PanicLevel]

theorem SetConfig_client_some (sys : Sys) (st : State) (config : LogConfig) :
    ∃ logger, (SetConfig sys st config).ComLoggerClient = some logger := by
  rcases SetConfig_client sys st config with h | h | ⟨wi, we, h⟩
  · exact ⟨_, h⟩
  · exact ⟨_, h⟩
  · exact ⟨_, h⟩

/-- The hooks of the general channel: the writer map has a writer for the
levels info, warn and error and for no other; whatever the system and the
configuration, a debug record produces nothing at all, and for a fatal or panic
record no hook writes to a rotating writer, the fatal call ending in
`os.Exit(1)` and the panic call in a panic. -/
theorem hooks_skip_debug_fatal_panic (sys : Sys) (st : State) (config : LogConfig)
    (now : Time) (message : String) :
    (∀ (logInfoWriter logErrorWriter : RotateLogs) (level : Level),
      (List.lookup level (comWriteMap logInfoWriter logErrorWriter)).isSome = true ↔
        level = InfoLevel ∨ level = WarnLevel ∨ level = ErrorLevel) ∧
    Debug (SetConfig sys st config) now message = [] ∧
    Debugf (SetConfig sys st config) now message = [] ∧
    writersOf (Fatal (SetConfig sys st config) now message) = [] ∧
    writersOf (Fatalf (SetConfig sys st config) now message) = [] ∧
    writersOf (Panic (SetConfig sys st config) now message) = [] ∧
    writersOf (Panicf (SetConfig sys st config) now message) = [] ∧
    (Fatal (SetConfig sys st config) now message).getLast? = some (Event.exit 1) ∧
    (Fatalf (SetConfig sys st config) now message).getLast? = some (Event.exit 1) ∧
    (Panic (SetConfig sys st config) now message).getLast? = some (Event.panic
      { Time := now, Level := PanicLevel, Message := message, Data := [] }) ∧
    (Panicf (SetConfig sys st config) now message).getLast? = some (Event.panic
      { Time := now, Level := PanicLevel, Message := message, Data := [] }) := by
  have hc := SetConfig_client sys st config
  obtain ⟨logger, hlogger⟩ := SetConfig_client_some sys st config
  have hfatal : writersOf (Fatal (SetConfig sys st config) now message) = [] := by
    have h := client_no_file sys _ now message FatalLevel (Or.inr (Or.inl rfl)) hc
    rw [hlogger] at h
    unfold Fatal
    rw [hlogger]
    simp only [withClient, Logger.Fatal, writersOf_append] at h ⊢
    rw [h]
    rfl
  refine ⟨comWriteMap_levels, client_debug_nothing sys _ now message hc,
    client_debug_nothing sys _ now message hc, hfatal, hfatal,
    client_no_file sys _ now message PanicLevel (Or.inl rfl) hc,
    client_no_file sys _ now message PanicLevel (Or.inl rfl) hc,
    client_fatal_exits _ logger now message hlogger,
    client_fatal_exits _ logger now message hlogger,
    client_panic_panics _ logger now message hlogger,
    client_panic_panics _ logger now message hlogger⟩

/-! ## A bootstrap that fails -/

theorem initLog_failed (sys : Sys) (st : State)
    (h : sys.MkdirAll st.defaultLogConfig.LogDir ≠ none ∨
      sys.patternError (Join [st.defaultLogConfig.LogDir, "info.%Y-%m-%d.log"]) ≠ none ∨
      sys.patternError (Join [st.defaultLogConfig.LogDir, "error.%Y-%m-%d.log"]) ≠ none) :
    (initLog sys st).ComLoggerClient = some Logger.New := by
  unfold initLog rotatelogsNew
  cases hm : sys.MkdirAll st.defaultLogConfig.LogDir with
  | some err => rfl
  | none =>
    simp only
    cases hi : sys.patternError (Join [st.defaultLogConfig.LogDir, "info.%Y-%m-%d.log"]) with
    | some err => rfl
    | none =>
      simp only
      cases he : sys.patternError
          (Join [st.defaultLogConfig.LogDir, "error.%Y-%m-%d.log"]) with
      | some err => rfl
      | none =>
        rcases h with h | h | h
        · exact absurd hm h
        · exact absurd hi h
        · exact absurd he h

theorem initAccessLog_failed (sys : Sys) (st : State)
    (h : sys.MkdirAll st.defaultLogConfig.LogDir ≠ none ∨
      sys.patternError (Join [st.defaultLogConfig.LogDir, "access.%Y-%m-%d.log"]) ≠ none) :
    (initAccessLog sys st).AccessLoggerClient = some Logger.New := by
  unfold initAccessLog rotatelogsNew
  cases hm : sys.MkdirAll st.defaultLogConfig.LogDir with
  | some err => rfl
  | none =>
    simp only
    cases ha : sys.patternError
        (Join [st.defaultLogConfig.LogDir, "access.%Y-%m-%d.log"]) with
    | some err => rfl
    | none =>
      rcases h with h | h
      · exact absurd hm h
      · exact absurd ha h

theorem fresh_logger_events (now : Time) (data : Fields) (level : Level) (message : String)
    (h1 : PanicLevel < level) (h2 : level ≤ InfoLevel) :
    Logger.New.Log now data level message =
      [Event.output Sink.stderr
        { TimestampFormat := "", FullTimestamp := false, PadLevelText := false }
        { Time := now, Level := level, Message := message, Data := data }] := by
  have hp : ¬ level ≤ PanicLevel := Nat.not_le.mpr h1
  have he : Logger.New.IsLevelEnabled level = true := by
    simpa [Logger.IsLevelEnabled, Logger.New] using h2
  unfold Logger.Log
  rw [if_pos he]
  simp [Logger.New, hp]

/-- After a bootstrap of the general channel that failed, for every system and
configuration: an info, warn or error record is written to standard error and
nowhere else, and a debug record nowhere. -/
theorem failed_general_channel (sys : Sys) (st : State) (config : LogConfig)
    (now : Time) (message : String)
    (h : sys.MkdirAll config.LogDir ≠ none ∨
      sys.patternError (Join [config.LogDir, "info.%Y-%m-%d.log"]) ≠ none ∨
      sys.patternError (Join [config.LogDir, "error.%Y-%m-%d.log"]) ≠ none) :
    Info (SetConfig sys st config) now message =
      [Event.output Sink.stderr
        { TimestampFormat := "", FullTimestamp := false, PadLevelText := false }
        { Time := now, Level := InfoLevel, Message := message, Data := [] }] ∧
    Warn (SetConfig sys st config) now message =
      [Event.output Sink.stderr
        { TimestampFormat := "", FullTimestamp := false, PadLevelText := false }
        { Time := now, Level := WarnLevel, Message := message, Data := [] }] ∧
    Error (SetConfig sys st config) now message =
      [Event.output Sink.stderr
        { TimestampFormat := "", FullTimestamp := false, PadLevelText := false }
        { Time := now, Level := ErrorLevel, Message := message, Data := [] }] ∧
    Debug (SetConfig sys st config) now message = [] := by
  have hclient : (SetConfig sys st config).ComLoggerClient = some Logger.New := by
    unfold SetConfig
    simp only [initAccessLog_ComLoggerClient]
    exact initLog_failed sys _ h
  refine ⟨?_, ?_, ?_, ?_⟩
  · simp only [Info, hclient, withClient]
    exact fresh_logger_events _ _ _ _ (by decide) (by decide)
  · simp only [Warn, hclient, withClient]
    exact fresh_logger_events _ _ _ _ (by decide) (by decide)
  · simp only [Error, hclient, withClient]
    exact fresh_logger_events _ _ _ _ (by decide) (by decide)
  · simp only [Debug, hclient, withClient]
    rfl

/-- After a bootstrap of the access channel that failed, for every system and
configuration: an access record is written to standard error and nowhere
else. -/
theorem failed_access_channel (sys : Sys) (st : State) (config : LogConfig)
    (now : Time) (message : String) (fields : Fields)
    (h : sys.MkdirAll config.LogDir ≠ none ∨
      sys.patternError (Join [config.LogDir, "access.%Y-%m-%d.log"]) ≠ none) :
    AccessInfo (SetConfig sys st config) now message fields =
      [Event.output Sink.stderr
        { TimestampFormat := "", FullTimestamp := false, PadLevelText := false }
        { Time := now, Level := InfoLevel, Message := message,
          Data := WithFields fields }] := by
  have hclient : (SetConfig sys st config).AccessLoggerClient = some Logger.New := by
    unfold SetConfig
    simp only
    apply initAccessLog_failed
    rw [initLog_defaultLogConfig]
    exact h
  simp only [AccessInfo, hclient, withClient]
  exact fresh_logger_events _ _ _ _ (by decide) (by decide)

/-- C6, the code at the failing input: the log directory lies under a regular
file, so `os.MkdirAll` fails in `initLog` and `initAccessLog`; or the directory
is created and `rotatelogs.New` rejects the templates.  Either way the client
is the logger `logrus.New()` returned, assigned before the failure return, so
the facade's nil guard does not fire: `Info`, `Error` and `AccessInfo` are not
no-ops, each writes its record to standard error. -/
theorem failed_bootstrap_still_emits :
    Info
        (SetConfig ⟨fun _ => none, fun dir => some ("mkdir " ++ dir ++ ": not a directory"),
          fun _ => none⟩ State.initial
          { LogDir := "/etc/passwd/logs", MaxAge := LogMaxAge, RotationTime := LogRotationTime,
            RotationSize := LogRotationSize, EnableConsole := true })
        ⟨2024, 3, 5, 7, 8, 9⟩ "started" =
      [Event.output Sink.stderr
        { TimestampFormat := "", FullTimestamp := false, PadLevelText := false }
        { Time := ⟨2024, 3, 5, 7, 8, 9⟩, Level := InfoLevel, Message := "started",
          Data := [] }] ∧
    AccessInfo
        (SetConfig ⟨fun _ => none, fun dir => some ("mkdir " ++ dir ++ ": not a directory"),
          fun _ => none⟩ State.initial
          { LogDir := "/etc/passwd/logs", MaxAge := LogMaxAge, RotationTime := LogRotationTime,
            RotationSize := LogRotationSize, EnableConsole := true })
        ⟨2024, 3, 5, 7, 8, 9⟩ "GET /" [("ip", .str "10.0.0.7")] =
      [Event.output Sink.stderr
        { TimestampFormat := "", FullTimestamp := false, PadLevelText := false }
        { Time := ⟨2024, 3, 5, 7, 8, 9⟩, Level := InfoLevel, Message := "GET /",
          Data := [("ip", .str "10.0.0.7")] }] ∧
    Error
        (SetConfig ⟨fun _ => none, fun _ => none,
          fun pattern => some ("failed to compile pattern " ++ pattern)⟩ State.initial
          { LogDir := "logs/%Q", MaxAge := LogMaxAge, RotationTime := LogRotationTime,
            RotationSize := LogRotationSize, EnableConsole := true })
        ⟨2024, 3, 5, 7, 8, 9⟩ "lost" =
      [Event.output Sink.stderr
        { TimestampFormat := "", FullTimestamp := false, PadLevelText := false }
        { Time := ⟨2024, 3, 5, 7, 8, 9⟩, Level := ErrorLevel, Message := "lost",
          Data := [] }] :=
  ⟨rfl, rfl, rfl⟩

/-! ## Descriptor 0 as the logger's output -/

/-- C10, the code at the failing input: no environment variable is set; the
package's `init` runs, `SetConfig` is called with the default configuration, a
garbage collection runs, then `Info("first")` and `Panic("boom")` (or
`Fatal("boom")`).  The loggers `init` made had `os.NewFile(0, os.DevNull)` as
output, so the collection closes descriptor 0; the info writer's first write
opens `logs/info.<date>.log` on descriptor 0; the panic (fatal) record, for
which no hook writes, is then written by the logger itself to descriptor 0,
that is, appended to the info log file. -/
theorem panic_record_reaches_info_file :
    ((Proc.start.collect (init ⟨fun _ => none, fun _ => none, fun _ => none⟩)).run
        (Info (SetConfig ⟨fun _ => none, fun _ => none, fun _ => none⟩
            (init ⟨fun _ => none, fun _ => none, fun _ => none⟩)
            State.initial.defaultLogConfig)
          ⟨2024, 3, 5, 7, 8, 9⟩ "first")).1.fd0 =
      Fd0.logFile
        { pattern := "logs/info.%Y-%m-%d.log", maxAge := LogMaxAge,
          rotationTime := LogRotationTime, rotationSize := LogRotationSize } ∧
    writersOf (Panic (SetConfig ⟨fun _ => none, fun _ => none, fun _ => none⟩
        (init ⟨fun _ => none, fun _ => none, fun _ => none⟩)
        State.initial.defaultLogConfig)
      ⟨2024, 3, 5, 7, 8, 10⟩ "boom") = [] ∧
    (((Proc.start.collect (init ⟨fun _ => none, fun _ => none, fun _ => none⟩)).run
        (Info (SetConfig ⟨fun _ => none, fun _ => none, fun _ => none⟩
            (init ⟨fun _ => none, fun _ => none, fun _ => none⟩)
            State.initial.defaultLogConfig)
          ⟨2024, 3, 5, 7, 8, 9⟩ "first")).1.run
        (Panic (SetConfig ⟨fun _ => none, fun _ => none, fun _ => none⟩
            (init ⟨fun _ => none, fun _ => none, fun _ => none⟩)
            State.initial.defaultLogConfig)
          ⟨2024, 3, 5, 7, 8, 10⟩ "boom")).2 =
      [{ pattern := "logs/info.%Y-%m-%d.log", maxAge := LogMaxAge,
         rotationTime := LogRotationTime, rotationSize := LogRotationSize }] ∧
    (((Proc.start.collect (init ⟨fun _ => none, fun _ => none, fun _ => none⟩)).run
        (Info (SetConfig ⟨fun _ => none, fun _ => none, fun _ => none⟩
            (init ⟨fun _ => none, fun _ => none, fun _ => none⟩)
            State.initial.defaultLogConfig)
          ⟨2024, 3, 5, 7, 8, 9⟩ "first")).1.run
        (Fatal (SetConfig ⟨fun _ => none, fun _ => none, fun _ => none⟩
            (init ⟨fun _ => none, fun _ => none, fun _ => none⟩)
            State.initial.defaultLogConfig)
          ⟨2024, 3, 5, 7, 8, 10⟩ "boom")).2 =
      [{ pattern := "logs/info.%Y-%m-%d.log", maxAge := LogMaxAge,
         rotationTime := LogRotationTime, rotationSize := LogRotationSize }] := by
  refine ⟨?_, ?_, ?_, ?_⟩ <;> decide

/-! ## The console-echo flag -/

/-- C7, the code at the failing input: a configuration with
`EnableConsole = false`, applied by `SetConfig` in a development environment
(`ENV=dev`), still echoes an info record to standard output, next to the line
written to the info file, the same events as with `EnableConsole = true`;
`EnableConsole` is read nowhere. -/
theorem console_flag_ignored :
    Info
        (SetConfig ⟨fun key => if key = "ENV" then some "dev" else none, fun _ => none,
          fun _ => none⟩ State.initial
          { LogDir := "logs", MaxAge := LogMaxAge, RotationTime := LogRotationTime,
            RotationSize := LogRotationSize, EnableConsole := false })
        ⟨2024, 3, 5, 7, 8, 9⟩ "started" =
      [Event.fileWrite
        { pattern := "logs/info.%Y-%m-%d.log", maxAge := LogMaxAge,
          rotationTime := LogRotationTime, rotationSize := LogRotationSize }
        "[2024-03-05 07:08:09] [info] started\n",
       Event.output Sink.stdout
        { TimestampFormat := "2006-01-02 15:04:05", FullTimestamp := true,
          PadLevelText := true }
        { Time := ⟨2024, 3, 5, 7, 8, 9⟩, Level := InfoLevel, Message := "started",
          Data := [] }] ∧
    Info
        (SetConfig ⟨fun key => if key = "ENV" then some "dev" else none, fun _ => none,
          fun _ => none⟩ State.initial
          { LogDir := "logs", MaxAge := LogMaxAge, RotationTime := LogRotationTime,
            RotationSize := LogRotationSize, EnableConsole := false })
        ⟨2024, 3, 5, 7, 8, 9⟩ "started" =
      Info
        (SetConfig ⟨fun key => if key = "ENV" then some "dev" else none, fun _ => none,
          fun _ => none⟩ State.initial
          { LogDir := "logs", MaxAge := LogMaxAge, RotationTime := LogRotationTime,
            RotationSize := LogRotationSize, EnableConsole := true })
        ⟨2024, 3, 5, 7, 8, 9⟩ "started" :=
  ⟨rfl, rfl⟩

end PmLog
